import Mathlib

/-!
Shallow embedding of the Offline_Video_Player repository's player logic.

The embedded code is:
* `src/components/VideoPlayer.tsx` — the video player component: its
  `PlayerState`, the control operations (`togglePlay`, `handleSeek`,
  `handleSpeedChange`, `cycleZoomMode`) and the touch-gesture handlers that
  the JSX actually wires up (`handleTouchStart`, `handleTouchMoveFixed`,
  `handleTouchEndFixed`).
* `src/components/PlayerControls.tsx` — the center ±10 s buttons and the
  speed-chip list.
* `src/App.tsx` — the audio queue logic (`playAudioAtIndex`,
  `handleAudioNext`, `handleAudioPrev`, `onAudioEnded`).

Modelling conventions:
* Numeric values (`clientX`, `clientY`, times, seconds, volume, scale, …)
  are rationals `ℚ`; the source's arithmetic on them is `+ - * /`, `Math.min`,
  `Math.max` and comparisons, all of which are exact on `ℚ`.
* React semantics: within one event-handler invocation, reads of `useState`
  values (`state`, `gestureType`, …) see the render snapshot taken at handler
  entry, while `useRef` cells (`touchStartRef`, `initialValueRef`,
  `targetSeekTimeRef`, …) read and write immediately.  Between two events the
  queued `setState` updates have been flushed.  The embedding therefore
  represents one handler as a pure function from the component record (the
  snapshot plus refs) to the updated record, binding the snapshot fields once
  at entry.
* The `<video>` / `<audio>` DOM element behind `videoRef` / `audioRef` is
  modelled as a record of the properties the code assigns
  (`currentTime`, `volume`, `playbackRate`, paused flag); it always exists
  while the component is mounted, as in the JSX.
* Timer callbacks (`setTimeout`) are events that have not yet fired within
  the touch sequences considered; the controls-visibility timer state is not
  modelled (no claim mentions it).
-/

/-- `ZoomMode` enum from `src/unnamed/part_002` (`types.ts`).  The source
constructors carry CSS string values (`'contain'`, `'cover'`, `'fill'`,
`'zoom_150'`, `'zoom_200'`); the spec's `FREE` zoom mode is the code's
`ZOOM_150` (the continuously-scaled pinch mode). -/
inductive ZoomMode where
  | FIT
  | FILL
  | STRETCH
  | ZOOM_150
  | ZOOM_200
deriving DecidableEq, Repr

/-- `GestureType` union from `types.ts`:
`'NONE' | 'VOLUME' | 'BRIGHTNESS' | 'SEEK' | 'ZOOM'`. -/
inductive GestureType where
  | NONE
  | VOLUME
  | BRIGHTNESS
  | SEEK
  | ZOOM
deriving DecidableEq, Repr

/-- `RepeatMode` enum from `types.ts`. -/
inductive RepeatMode where
  | OFF
  | ONE
  | ALL
deriving DecidableEq, Repr

/-- `PlayerState` interface from `types.ts` (video player state record). -/
structure PlayerState where
  isPlaying : Bool
  currentTime : ℚ
  duration : ℚ
  volume : ℚ
  brightness : ℚ
  playbackRate : ℚ
  zoomMode : ZoomMode
  scale : ℚ
deriving DecidableEq, Repr

/-- The `HTMLVideoElement` behind `videoRef`: the properties the component
assigns (`currentTime`, `volume`, `playbackRate`) plus its paused flag. -/
structure VideoEl where
  currentTime : ℚ
  volume : ℚ
  playbackRate : ℚ
  paused : Bool
deriving DecidableEq, Repr

/-- One touch point of `e.touches` (fields `clientX`, `clientY`). -/
structure TouchPoint where
  x : ℚ
  y : ℚ
deriving DecidableEq, Repr

/-- Contents of `lastTapRef` when non-null: `{ time, x }`. -/
structure TapMemory where
  time : ℚ
  x : ℚ
deriving DecidableEq, Repr

/-- Contents of `touchStartRef` when non-null: `{ x, y, time }`. -/
structure TouchAnchor where
  x : ℚ
  y : ℚ
  time : ℚ
deriving DecidableEq, Repr

/-- One touch event sample.  `touches` is `e.touches`; `time` is the
`Date.now()` reading during the handler; `pinchDist` is the value
`Math.hypot(touches[0].clientX - touches[1].clientX, touches[0].clientY -
touches[1].clientY)` that the source computes for two-finger events — since
the square root of a rational is in general irrational, the embedding carries
this measured separation with the sample (it is only ever used through the
ratio of two such distances) and it is meaningful only when two touches are
present. -/
structure TouchEvt where
  touches : List TouchPoint
  time : ℚ
  pinchDist : ℚ
deriving DecidableEq, Repr

/-- The mounted `VideoPlayer` component: React state (`state`, `gestureType`,
`gestureValue`, `gestureText`), the mutable refs, and the video element. -/
structure VP where
  state : PlayerState
  gestureType : GestureType
  gestureValue : ℚ
  gestureText : String
  touchStart : Option TouchAnchor
  lastTap : Option TapMemory
  initialValue : ℚ
  pinchStartDist : ℚ
  targetSeekTime : ℚ
  video : VideoEl
deriving DecidableEq, Repr

/-- Modelled from the spec: `VideoPlayer.tsx` imports `SWIPE_THRESHOLD` from
`../constants`, a file absent from the source tree; §4.1 gives the design
value 30 px. -/
def SWIPE_THRESHOLD : ℚ := 30

/-- Modelled from the spec: `VideoPlayer.tsx` imports `DOUBLE_TAP_DELAY` from
`../constants`, a file absent from the source tree; §4.1 gives the design
value 300 ms. -/
def DOUBLE_TAP_DELAY : ℚ := 300

/-- JavaScript `Math.round`: round half toward positive infinity. -/
def jsRound (q : ℚ) : Int := ⌊q + 1 / 2⌋

/-- The seek overlay label built in the SEEK move branch:
`(diff > 0 ? '+' : '') + Math.round(diff) + 's'`. -/
def seekLabel (diff : ℚ) : String :=
  (if diff > 0 then "+" else "") ++ toString (jsRound diff) ++ "s"

/-- `handleSeek` (`VideoPlayer.tsx` lines 81–87): writes `time` to the video
element's `currentTime` and mirrors it into `state.currentTime`
(`resetControlsTimeout` only touches the unmodelled controls timer). -/
def handleSeek (c : VP) (time : ℚ) : VP :=
  { c with
    video := { c.video with currentTime := time }
    state := { c.state with currentTime := time } }

/-- `handleSpeedChange` (`VideoPlayer.tsx` lines 89–94): writes `rate` to the
video element's `playbackRate` and mirrors it into `state.playbackRate`. -/
def handleSpeedChange (c : VP) (rate : ℚ) : VP :=
  { c with
    video := { c.video with playbackRate := rate }
    state := { c.state with playbackRate := rate } }

/-- `togglePlay` (`VideoPlayer.tsx` lines 70–79).  The source calls
`videoRef.current.play()` without observing the returned promise, then flips
`isPlaying` unconditionally.  `playRejects` says whether the transport rejects
that `play()` call (e.g. autoplay permission); on rejection the element stays
paused, but the source installs no rejection handler. -/
def togglePlay (playRejects : Bool) (c : VP) : VP :=
  if c.state.isPlaying then
    { c with
      video := { c.video with paused := true }
      state := { c.state with isPlaying := false } }
  else
    { c with
      video := { c.video with paused := if playRejects then c.video.paused else false }
      state := { c.state with isPlaying := true } }

/-- The `modes` array in `cycleZoomMode`: `[ZoomMode.FIT, ZoomMode.FILL,
ZoomMode.STRETCH]`. -/
def zoomModes : List ZoomMode := [ZoomMode.FIT, ZoomMode.FILL, ZoomMode.STRETCH]

/-- Result of `modes.indexOf(state.zoomMode)` on the `zoomModes` array:
position in the array, `-1` when absent (`ZOOM_150`, `ZOOM_200`). -/
def zoomModeIndexOf (m : ZoomMode) : Int :=
  match m with
  | ZoomMode.FIT => 0
  | ZoomMode.FILL => 1
  | ZoomMode.STRETCH => 2
  | _ => -1

/-- `cycleZoomMode` (`VideoPlayer.tsx` lines 96–103):
`nextMode = modes[(modes.indexOf(current) + 1) % modes.length]`, then sets
`zoomMode := nextMode` and resets `scale := 1`.  In JavaScript,
`indexOf` yields `-1` for the custom zoom modes, so `(-1 + 1) % 3 = 0` sends
them to `FIT`. -/
def cycleZoomMode (c : VP) : VP :=
  let currentIndex := zoomModeIndexOf c.state.zoomMode
  let nextMode := zoomModes.getD ((currentIndex + 1) % (zoomModes.length : Int)).toNat ZoomMode.FIT
  { c with state := { c.state with zoomMode := nextMode, scale := 1 } }

/-- The fall-through tail of the one-finger `handleTouchStart` path
(`VideoPlayer.tsx` lines 145–157): records the tap in `lastTapRef` and the
anchor in `touchStartRef`, and snapshots brightness (left half) or volume
(right half) into `initialValueRef`. -/
def registerTap (screenW : ℚ) (c : VP) (touch : TouchPoint) (now : ℚ) : VP :=
  let isLeft := touch.x < screenW / 2
  { c with
    lastTap := some { time := now, x := touch.x }
    touchStart := some { x := touch.x, y := touch.y, time := now }
    initialValue := if isLeft then c.state.brightness else c.state.volume }

/-- The confirmed double-tap branch of `handleTouchStart` (`VideoPlayer.tsx`
lines 130–141): seek ±10 s clamped to `[0, duration]`, show the SEEK overlay,
clear the double-tap memory.  The deferred
`setTimeout(() => setGestureType('NONE'), 500)` is a timer that has not yet
fired within the touch sequences considered. -/
def doubleTapSeek (screenW : ℚ) (c : VP) (touch : TouchPoint) : VP :=
  let isLeft := touch.x < screenW / 2
  let seekAmount : ℚ := if isLeft then -10 else 10
  let c1 := handleSeek c (min (max (c.state.currentTime + seekAmount) 0) c.state.duration)
  { c1 with
    gestureType := GestureType.SEEK
    gestureValue := 0
    gestureText := if seekAmount > 0 then "+10s" else "-10s"
    lastTap := none }

/-- `handleTouchStart` (`VideoPlayer.tsx` lines 107–159).  Two fingers: record
the pinch origin distance and the current scale as baseline and enter `ZOOM`.
One finger: double-tap check against `lastTapRef` (within `DOUBLE_TAP_DELAY`
and 50 px), otherwise register the tap and anchor. -/
def handleTouchStart (screenW : ℚ) (c : VP) (e : TouchEvt) : VP :=
  if e.touches.length = 2 then
    { c with
      pinchStartDist := e.pinchDist
      initialValue := c.state.scale
      gestureType := GestureType.ZOOM }
  else
    match e.touches with
    | [touch] =>
      let now := e.time
      match c.lastTap with
      | some tap =>
        if now - tap.time < DOUBLE_TAP_DELAY ∧ |touch.x - tap.x| < 50 then
          doubleTapSeek screenW c touch
        else
          registerTap screenW c touch now
      | none => registerTap screenW c touch now
    | _ => c

/-- `handleTouchMoveFixed` (`VideoPlayer.tsx` lines 262–318), the move handler
the JSX wires up.  `gt` is the render-snapshot `gestureType`: the handler's
own `setGestureType` calls are not visible to the checks later in the same
invocation, so the direction lock takes effect only from the next sample on.
Ref writes (`initialValueRef`, `targetSeekTimeRef`) are immediate. -/
def handleTouchMoveFixed (screenW screenH : ℚ) (c : VP) (e : TouchEvt) : VP :=
  if c.gestureType = GestureType.SEEK ∧ c.touchStart = none ∧ e.touches.length = 1 then
    c
  else
    let gt := c.gestureType
    let afterSingle :=
      match e.touches, c.touchStart with
      | [touch], some ts =>
        let dx := touch.x - ts.x
        let dy := ts.y - touch.y
        let locked :=
          if gt = GestureType.NONE ∨ gt = GestureType.ZOOM then
            if |dx| > SWIPE_THRESHOLD ∧ |dx| > |dy| then
              { c with gestureType := GestureType.SEEK, initialValue := c.state.currentTime }
            else if |dy| > SWIPE_THRESHOLD ∧ |dy| > |dx| then
              { c with gestureType :=
                  if ts.x < screenW / 2 then GestureType.BRIGHTNESS else GestureType.VOLUME }
            else c
          else c
        if gt = GestureType.VOLUME then
          let change := dy / (screenH / 2)
          let newVal := min (max (locked.initialValue + change) 0) 1
          { locked with
            video := { locked.video with volume := newVal }
            state := { locked.state with volume := newVal }
            gestureValue := newVal }
        else if gt = GestureType.BRIGHTNESS then
          let change := dy / (screenH / 2)
          let newVal := min (max (locked.initialValue + change) 0.2) 1.5
          { locked with
            state := { locked.state with brightness := newVal }
            gestureValue := newVal }
        else if gt = GestureType.SEEK then
          let changeS := (dx / screenW) * 90
          let target := min (max (locked.initialValue + changeS) 0) locked.state.duration
          { locked with
            targetSeekTime := target
            gestureValue := target
            gestureText := seekLabel (target - locked.initialValue) }
        else locked
      | _, _ => c
    if e.touches.length = 2 ∧ gt = GestureType.ZOOM then
      let scaleFactor := e.pinchDist / afterSingle.pinchStartDist
      let newScale := min (max (afterSingle.initialValue * scaleFactor) 0.5) 3.0
      { afterSingle with
        state := { afterSingle.state with scale := newScale, zoomMode := ZoomMode.ZOOM_150 }
        gestureValue := newScale }
    else afterSingle

/-- `handleTouchEndFixed` (`VideoPlayer.tsx` lines 320–330), the end handler
the JSX wires up: if the snapshot `gestureType` is SEEK, commit
`targetSeekTimeRef` to the video element and `state.currentTime`; then clear
the anchor, the gesture type and the overlay text. -/
def handleTouchEndFixed (c : VP) : VP :=
  let c1 :=
    if c.gestureType = GestureType.SEEK then
      { c with
        video := { c.video with currentTime := c.targetSeekTime }
        state := { c.state with currentTime := c.targetSeekTime } }
    else c
  { c1 with
    touchStart := none
    gestureType := GestureType.NONE
    gestureText := "" }

/-- The `speeds` array rendered as speed chips (`PlayerControls.tsx` line 42):
`[0.5, 1.0, 1.25, 1.5, 2.0]`; each chip calls `onSpeedChange(s)`. -/
def speeds : List ℚ := [0.5, 1.0, 1.25, 1.5, 2.0]

/-- The center rewind button (`PlayerControls.tsx` line 68):
`onSeek(state.currentTime - 10)` with `onSeek = handleSeek`. -/
def rewindButton (c : VP) : VP := handleSeek c (c.state.currentTime - 10)

/-- The center forward button (`PlayerControls.tsx` line 79):
`onSeek(state.currentTime + 10)` with `onSeek = handleSeek`. -/
def forwardButton (c : VP) : VP := handleSeek c (c.state.currentTime + 10)

/-- `AudioFile` interface from `types.ts`; the `url`/`file` handles are
external resources with no bearing on the queue logic and are omitted. -/
structure AudioFile where
  id : String
  name : String
  artist : String
deriving DecidableEq, Repr

/-- `AudioPlayerState` interface from `types.ts`. -/
structure AudioPlayerState where
  isPlaying : Bool
  currentTime : ℚ
  duration : ℚ
  volume : ℚ
  playbackRate : ℚ
  isShuffling : Bool
  repeatMode : RepeatMode
deriving DecidableEq, Repr

/-- The `HTMLAudioElement` behind `audioRef`: the properties the queue logic
touches (`currentTime` and whether a `play()` has been requested). -/
structure AudioEl where
  currentTime : ℚ
  playing : Bool
deriving DecidableEq, Repr

/-- The `App` component's audio-side state (`src/App.tsx`): the library list,
the current index (`-1` when nothing selected), the full-player flag, the
`AudioPlayerState`, and the audio element. -/
structure AppState where
  audioFiles : List AudioFile
  currentAudioIndex : Int
  isAudioPlayerOpen : Bool
  audioState : AudioPlayerState
  audioEl : AudioEl
deriving DecidableEq, Repr

/-- `playAudioAtIndex` (`App.tsx` lines 65–74): when `0 ≤ index <
audioFiles.length`, select the index, open the full player and request
`play()` on the element (the `.catch(() => {})` swallows a rejection; the
embedding records the successful request). -/
def playAudioAtIndex (a : AppState) (index : Int) : AppState :=
  if 0 ≤ index ∧ index < (a.audioFiles.length : Int) then
    { a with
      currentAudioIndex := index
      isAudioPlayerOpen := true
      audioEl := { a.audioEl with playing := true } }
  else a

/-- `handleAudioNext` (`App.tsx` lines 76–86).  `rand` is the value
`Math.floor(Math.random() * audioFiles.length)` drawn when shuffling, a
number in `[0, audioFiles.length)`. -/
def handleAudioNext (rand : Nat) (a : AppState) : AppState :=
  if a.audioFiles.length = 0 then a
  else
    let nextIndex : Int :=
      if a.audioState.isShuffling then (rand : Int)
      else if a.currentAudioIndex + 1 ≥ (a.audioFiles.length : Int) then 0
      else a.currentAudioIndex + 1
    playAudioAtIndex a nextIndex

/-- `handleAudioPrev` (`App.tsx` lines 88–104): more than 3 seconds into the
track, just rewind the element to 0; otherwise step to the previous index
(random when shuffling, wrapping `-1` to the last index otherwise). -/
def handleAudioPrev (rand : Nat) (a : AppState) : AppState :=
  if a.audioFiles.length = 0 then a
  else if a.audioEl.currentTime > 3 then
    { a with audioEl := { a.audioEl with currentTime := 0 } }
  else
    let prevIndex : Int :=
      if a.audioState.isShuffling then (rand : Int)
      else if a.currentAudioIndex - 1 < 0 then (a.audioFiles.length : Int) - 1
      else a.currentAudioIndex - 1
    playAudioAtIndex a prevIndex

/-- `onAudioEnded` (`App.tsx` lines 127–135): `ONE` replays the same element;
`ALL` or not-last advances via `handleAudioNext`; otherwise clear
`isPlaying`. -/
def onAudioEnded (rand : Nat) (a : AppState) : AppState :=
  if a.audioState.repeatMode = RepeatMode.ONE then
    { a with audioEl := { a.audioEl with playing := true } }
  else if a.audioState.repeatMode = RepeatMode.ALL ∨
      a.currentAudioIndex < (a.audioFiles.length : Int) - 1 then
    handleAudioNext rand a
  else
    { a with audioState := { a.audioState with isPlaying := false } }

/-! ### Fixture states for concrete evaluations -/

/-- A freshly mounted player state 20 s into a 100 s video (matching the
spec's worked example), all other fields at their mount defaults. -/
def ps0 : PlayerState :=
  { isPlaying := false, currentTime := 20, duration := 100, volume := 1,
    brightness := 1, playbackRate := 1, zoomMode := ZoomMode.FIT, scale := 1 }

/-- The video element in the `ps0` situation. -/
def vid0 : VideoEl :=
  { currentTime := 20, volume := 1, playbackRate := 1, paused := true }

/-- A freshly mounted `VideoPlayer` component in the `ps0` situation: no
gesture active, refs at their `useRef` initial values. -/
def vp0 : VP :=
  { state := ps0, gestureType := GestureType.NONE, gestureValue := 0,
    gestureText := "", touchStart := none, lastTap := none, initialValue := 0,
    pinchStartDist := 0, targetSeekTime := 0, video := vid0 }

/-! ### C2 -/

/-- C2: locked intent is stable — once an interaction's gesture type is
locked to SEEK, VOLUME or BRIGHTNESS, no later touch-move sample of the
interaction changes it (the direction-lock block only runs while the
snapshot `gestureType` is still NONE or ZOOM). -/
theorem locked_intent_stable (screenW screenH : ℚ) (c : VP) (e : TouchEvt)
    (h : c.gestureType = GestureType.SEEK ∨ c.gestureType = GestureType.VOLUME ∨
         c.gestureType = GestureType.BRIGHTNESS) :
    (handleTouchMoveFixed screenW screenH c e).gestureType = c.gestureType := by
  unfold handleTouchMoveFixed
  rcases e.touches with _ | ⟨t, _ | ⟨t2, rest⟩⟩ <;>
    rcases hts : c.touchStart with _ | ts <;>
    rcases h with h | h | h <;>
    simp [h, hts]

/-- Witness for C2: a component mid-VOLUME-drag keeps intent VOLUME across a
further move sample. -/
theorem locked_intent_stable_witness :
    (handleTouchMoveFixed 400 600
      { vp0 with gestureType := GestureType.VOLUME,
                 touchStart := some { x := 300, y := 400, time := 0 } }
      { touches := [{ x := 260, y := 200 }], time := 50, pinchDist := 0 }).gestureType
      = GestureType.VOLUME :=
  locked_intent_stable 400 600 _ _ (Or.inr (Or.inl rfl))

/-! ### C6 -/

/-- C6: `cycleZoomMode` resets `scale` to 1 on every call, advances
FIT→FILL→STRETCH→FIT (three calls from FIT return to FIT), a call made in the
continuous pinch mode `ZOOM_150` (the spec's FREE) exits it to FIT with scale
reset, and no other operation of the component leaves `ZOOM_150`. -/
theorem cycleZoomMode_spec :
    (∀ c : VP, (cycleZoomMode c).state.scale = 1) ∧
    (∀ c : VP, c.state.zoomMode = ZoomMode.FIT →
        (cycleZoomMode c).state.zoomMode = ZoomMode.FILL ∧
        (cycleZoomMode (cycleZoomMode c)).state.zoomMode = ZoomMode.STRETCH ∧
        (cycleZoomMode (cycleZoomMode (cycleZoomMode c))).state.zoomMode = ZoomMode.FIT) ∧
    (∀ c : VP, c.state.zoomMode = ZoomMode.ZOOM_150 →
        (cycleZoomMode c).state.zoomMode = ZoomMode.FIT ∧
        (cycleZoomMode c).state.scale = 1) ∧
    (∀ c : VP, c.state.zoomMode = ZoomMode.ZOOM_150 →
        (∀ t, (handleSeek c t).state.zoomMode = ZoomMode.ZOOM_150) ∧
        (∀ r, (handleSpeedChange c r).state.zoomMode = ZoomMode.ZOOM_150) ∧
        (∀ b, (togglePlay b c).state.zoomMode = ZoomMode.ZOOM_150) ∧
        (∀ W e, (handleTouchStart W c e).state.zoomMode = ZoomMode.ZOOM_150) ∧
        (∀ W H e, (handleTouchMoveFixed W H c e).state.zoomMode = ZoomMode.ZOOM_150) ∧
        (handleTouchEndFixed c).state.zoomMode = ZoomMode.ZOOM_150) := by
  refine ⟨?_, ?_, ?_, ?_⟩
  · intro c
    cases h : c.state.zoomMode <;> simp [cycleZoomMode, zoomModeIndexOf, zoomModes, h]
  · intro c h
    refine ⟨?_, ?_, ?_⟩ <;> simp [cycleZoomMode, zoomModeIndexOf, zoomModes, h]
  · intro c h
    constructor <;> simp [cycleZoomMode, zoomModeIndexOf, zoomModes, h]
  · intro c h
    refine ⟨?_, ?_, ?_, ?_, ?_, ?_⟩
    · intro t; simp [handleSeek, h]
    · intro r; simp [handleSpeedChange, h]
    · intro b; unfold togglePlay; split_ifs <;> simp [h]
    · intro W e
      unfold handleTouchStart
      rcases e.touches with _ | ⟨t, _ | ⟨t2, rest⟩⟩ <;>
        rcases c.lastTap with _ | tap <;>
        simp [registerTap, doubleTapSeek, handleSeek, h] <;>
        split_ifs <;> simp [h]
    · intro W H e
      unfold handleTouchMoveFixed
      rcases e.touches with _ | ⟨t, _ | ⟨t2, rest⟩⟩ <;>
        rcases hts : c.touchStart with _ | ts <;>
        simp [hts, h] <;> split_ifs <;> simp [h]
    · unfold handleTouchEndFixed; split_ifs <;> simp [h]

/-- Witness for C6: three cycles from the freshly mounted FIT state return to
FIT; one cycle from the pinch mode exits to FIT; a touch-end in pinch mode
does not leave the pinch mode. -/
theorem cycleZoomMode_spec_witness :
    (cycleZoomMode (cycleZoomMode (cycleZoomMode vp0))).state.zoomMode = ZoomMode.FIT ∧
    (cycleZoomMode { vp0 with state := { ps0 with zoomMode := ZoomMode.ZOOM_150 } }).state.zoomMode
      = ZoomMode.FIT ∧
    (handleTouchEndFixed { vp0 with state := { ps0 with zoomMode := ZoomMode.ZOOM_150 } }).state.zoomMode
      = ZoomMode.ZOOM_150 :=
  ⟨(cycleZoomMode_spec.2.1 vp0 rfl).2.2,
   (cycleZoomMode_spec.2.2.1 _ rfl).1,
   (cycleZoomMode_spec.2.2.2 _ rfl).2.2.2.2.2⟩

/-! ### C5 -/

/-- C5 counterexample: with `currentTime = 5` and `duration = 100`, the
center rewind button calls `onSeek(currentTime - 10)` and `handleSeek`
writes −5 unclamped to the transport position and `state.currentTime`,
so a seek does set `currentTime` outside `[0, duration]`. -/
theorem seek_unclamped_counterexample :
    (rewindButton { vp0 with state := { ps0 with currentTime := 5 } }).state.currentTime = -5 ∧
    (rewindButton { vp0 with state := { ps0 with currentTime := 5 } }).video.currentTime = -5 ∧
    ¬ (0 ≤ (rewindButton { vp0 with state := { ps0 with currentTime := 5 } }).state.currentTime) := by
  refine ⟨?_, ?_, ?_⟩ <;> simp [rewindButton, handleSeek] <;> norm_num

/-- C5 amended: `handleSeek` writes its argument to the transport position and
to `currentTime` without clamping, for every input; the gesture-commit and
double-tap callers pass pre-clamped values, but the center ±10 s buttons pass
`currentTime ∓ 10` unclamped, so a seek can set `currentTime` outside
`[0, duration]`. -/
theorem handleSeek_writes_unclamped (c : VP) (t : ℚ) :
    (handleSeek c t).state.currentTime = t ∧
    (handleSeek c t).video.currentTime = t ∧
    (rewindButton c).state.currentTime = c.state.currentTime - 10 ∧
    (forwardButton c).state.currentTime = c.state.currentTime + 10 :=
  ⟨rfl, rfl, rfl, rfl⟩

/-! ### C7 -/

/-- C7 counterexample: invoking `togglePlay` while paused with a transport
that rejects the `play()` request still leaves `isPlaying = true` (the
element remains paused), so `isPlaying` is set optimistically before any
transport confirmation and never reverts on rejection. -/
theorem togglePlay_no_revert_counterexample :
    (togglePlay true vp0).state.isPlaying = true ∧
    (togglePlay true vp0).video.paused = true := by
  decide

/-- C7 amended: `togglePlay` flips `isPlaying` unconditionally at call time,
whether or not the transport rejects the `play()` request, and changes no
other `PlayerState` field; a rejection causes no revert. -/
theorem togglePlay_flips_unconditionally (r : Bool) (c : VP) :
    (togglePlay r c).state.isPlaying = !c.state.isPlaying ∧
    (togglePlay r c).state.currentTime = c.state.currentTime ∧
    (togglePlay r c).state.duration = c.state.duration ∧
    (togglePlay r c).state.volume = c.state.volume ∧
    (togglePlay r c).state.brightness = c.state.brightness ∧
    (togglePlay r c).state.playbackRate = c.state.playbackRate ∧
    (togglePlay r c).state.zoomMode = c.state.zoomMode ∧
    (togglePlay r c).state.scale = c.state.scale := by
  unfold togglePlay
  split_ifs with h <;> simp [h]

/-! ### C8 -/

/-- C8 counterexample: `handleSpeedChange` applied with `r = 0.75`, a rate
outside the allowed set `{0.5, 1.0, 1.25, 1.5, 2.0}`, is not a no-op: it
changes `playbackRate` to 0.75. -/
theorem setRate_no_validation_counterexample :
    (handleSpeedChange vp0 0.75).state.playbackRate = 0.75 ∧
    (handleSpeedChange vp0 0.75).state.playbackRate ≠ vp0.state.playbackRate ∧
    (0.75 : ℚ) ∉ speeds := by
  refine ⟨rfl, ?_, ?_⟩
  · simp [handleSpeedChange, vp0, ps0]
    norm_num
  · simp [speeds]
    norm_num

/-- C8 amended: `handleSpeedChange` applies any rate `r` unconditionally to
both `state.playbackRate` and the transport rate, with no validation; the
fixed set `{0.5, 1.0, 1.25, 1.5, 2.0}` exists only as the list of speed chips
the UI renders, each of which calls `handleSpeedChange` with its value. -/
theorem handleSpeedChange_applies_any (c : VP) (r : ℚ) :
    (handleSpeedChange c r).state.playbackRate = r ∧
    (handleSpeedChange c r).video.playbackRate = r ∧
    speeds = [0.5, 1.0, 1.25, 1.5, 2.0] :=
  ⟨rfl, rfl, rfl⟩

/-! ### C1 -/

/-- C1 (amended): SEEK is commit-on-release for interactions whose SEEK lock
was already in effect at their final move sample.  (i) No touch-move sample
ever mutates `state.currentTime` or the transport position — the SEEK move
branch only stages `targetSeekTimeRef` and overlay feedback.  (ii) For an
interaction locked to SEEK before its last move (snapshot
`gestureType = SEEK` at that move, anchor `ts` present), the move at `touch`
followed by the finger-up sets both the transport position and `currentTime`
to the last computed candidate
`clamp(baselineValue + (dx / screenWidth) * 90, 0, duration)`.  The
restriction to an already-locked final move is necessary: an interaction
that locks SEEK on its very last move stages no candidate (the locking
sample's snapshot `gestureType` is still `'NONE'`, so the SEEK-update branch
is skipped) and the finger-up commits the stale `targetSeekTimeRef` — see
the counterexample below. -/
theorem seek_commit_on_release (screenW screenH : ℚ) (c : VP) (e : TouchEvt)
    (ts : TouchAnchor) (touch : TouchPoint)
    (hgt : c.gestureType = GestureType.SEEK)
    (hts : c.touchStart = some ts)
    (he : e.touches = [touch]) :
    (∀ (c' : VP) (e' : TouchEvt),
       (handleTouchMoveFixed screenW screenH c' e').state.currentTime = c'.state.currentTime ∧
       (handleTouchMoveFixed screenW screenH c' e').video.currentTime = c'.video.currentTime) ∧
    (handleTouchEndFixed (handleTouchMoveFixed screenW screenH c e)).state.currentTime
        = min (max (c.initialValue + ((touch.x - ts.x) / screenW) * 90) 0) c.state.duration ∧
    (handleTouchEndFixed (handleTouchMoveFixed screenW screenH c e)).video.currentTime
        = min (max (c.initialValue + ((touch.x - ts.x) / screenW) * 90) 0) c.state.duration := by
  refine ⟨?_, ?_, ?_⟩
  · intro c' e'
    unfold handleTouchMoveFixed
    rcases e'.touches with _ | ⟨t, _ | ⟨t2, rest⟩⟩ <;>
      rcases h : c'.touchStart with _ | ts' <;>
      simp [h] <;> split_ifs <;> simp
  · simp [handleTouchMoveFixed, handleTouchEndFixed, hgt, hts, he]
  · simp [handleTouchMoveFixed, handleTouchEndFixed, hgt, hts, he]

/-- The component mid-SEEK-drag used to witness C1: anchor at x = 100,
baseline 20 s into the 100 s video. -/
def vpSeek : VP :=
  { vp0 with
    gestureType := GestureType.SEEK
    touchStart := some { x := 100, y := 300, time := 0 }
    initialValue := 20 }

/-- The SEEK move sample used to witness C1: finger now at x = 300, so
dx = 200 on a 400 px screen. -/
def evSeek : TouchEvt := { touches := [{ x := 300, y := 290 }], time := 100, pinchDist := 0 }

/-- Witness for C1: the drag above commits
`clamp(20 + (200 / 400) * 90, 0, 100) = 65` on finger-up. -/
theorem seek_commit_on_release_witness :
    (handleTouchEndFixed (handleTouchMoveFixed 400 600 vpSeek evSeek)).state.currentTime = 65 := by
  have h := seek_commit_on_release 400 600 vpSeek evSeek
    { x := 100, y := 300, time := 0 } { x := 300, y := 290 } rfl rfl rfl
  rw [h.2.1]
  norm_num [vpSeek, vp0, ps0]

/-- Touch-down of the C1 counterexample interaction: x = 100, y = 300 at
t = 0 ms on the fresh session. -/
def seekDown : TouchEvt := { touches := [{ x := 100, y := 300 }], time := 0, pinchDist := 0 }

/-- The single (and final) move of the C1 counterexample interaction: the
finger reaches x = 140, so dx = 40 exceeds the 30 px threshold and locks
SEEK on this very sample. -/
def seekLockMove : TouchEvt := { touches := [{ x := 140, y := 300 }], time := 50, pinchDist := 0 }

/-- C1 counterexample: a fresh session at `currentTime = 20`,
`duration = 100` on a 400 px screen; touch-down at x = 100, one move to
x = 140 (dx = 40 locks SEEK on this final sample), finger-up.  The locked
intent of this one-finger interaction is SEEK, yet the finger-up sets
`currentTime` to the stale `targetSeekTimeRef` (0 in a fresh session), not
to the claimed candidate `clamp(20 + (40/400)·90, 0, 100) = 29`: the locking
sample's snapshot `gestureType` is still `'NONE'`, so no candidate was ever
staged for this interaction. -/
theorem seek_lock_on_final_move_counterexample :
    (handleTouchMoveFixed 400 600 (handleTouchStart 400 vp0 seekDown) seekLockMove).gestureType
        = GestureType.SEEK ∧
    (handleTouchEndFixed
        (handleTouchMoveFixed 400 600 (handleTouchStart 400 vp0 seekDown) seekLockMove)).state.currentTime
        = 0 ∧
    (handleTouchEndFixed
        (handleTouchMoveFixed 400 600 (handleTouchStart 400 vp0 seekDown) seekLockMove)).state.currentTime
        ≠ min (max (20 + ((140 - 100) / 400) * 90) 0) (100 : ℚ) := by
  have h1 : handleTouchStart 400 vp0 seekDown =
      { vp0 with
        lastTap := some { time := 0, x := 100 }
        touchStart := some { x := 100, y := 300, time := 0 }
        initialValue := 1 } := by
    norm_num [handleTouchStart, registerTap, seekDown, vp0, ps0, vid0]
  have h2 : handleTouchMoveFixed 400 600
      ({ vp0 with
         lastTap := some { time := 0, x := 100 }
         touchStart := some { x := 100, y := 300, time := 0 }
         initialValue := 1 } : VP) seekLockMove =
      { vp0 with
        gestureType := GestureType.SEEK
        lastTap := some { time := 0, x := 100 }
        touchStart := some { x := 100, y := 300, time := 0 }
        initialValue := 20 } := by
    simp [handleTouchMoveFixed, seekLockMove, vp0, ps0, vid0, SWIPE_THRESHOLD]
    norm_num
  rw [h1, h2]
  refine ⟨rfl, ?_, ?_⟩
  · simp [handleTouchEndFixed, vp0, ps0, vid0]
  · simp [handleTouchEndFixed, vp0, ps0, vid0]
    norm_num

/-! ### C4 -/

/-- C4: pinch zoom.  A two-finger touch-start followed by a two-finger move
applies `scale = clamp(baselineScale * (currentPinchDistance /
pinchOriginDistance), 0.5, 3.0)` and forces the continuous zoom mode
`ZOOM_150` (the spec's FREE); the baseline scale and origin distance are
re-captured from the component at each pinch start, so a regrab scales
relative to the new pinch-start values. -/
theorem pinch_zoom (screenW screenH : ℚ) (c : VP) (e0 e1 : TouchEvt)
    (h0 : e0.touches.length = 2) (h1 : e1.touches.length = 2) :
    (handleTouchMoveFixed screenW screenH (handleTouchStart screenW c e0) e1).state.scale
        = min (max (c.state.scale * (e1.pinchDist / e0.pinchDist)) 0.5) 3.0 ∧
    (handleTouchMoveFixed screenW screenH (handleTouchStart screenW c e0) e1).state.zoomMode
        = ZoomMode.ZOOM_150 := by
  obtain ⟨t1, t2, hl⟩ := List.length_eq_two.mp h1
  constructor <;> simp [handleTouchStart, handleTouchMoveFixed, h0, hl]

/-- First pinch sample pair for the C4 witness: origin separation 100 px. -/
def evPinchA : TouchEvt :=
  { touches := [{ x := 100, y := 100 }, { x := 200, y := 100 }], time := 0, pinchDist := 100 }

/-- Second pinch sample for the C4 witness: separation 150 px. -/
def evPinchB : TouchEvt :=
  { touches := [{ x := 75, y := 100 }, { x := 225, y := 100 }], time := 50, pinchDist := 150 }

/-- The component after the first pinch (origin 100 px, spread to 150 px)
from the freshly mounted state. -/
def pinch1 : VP := handleTouchMoveFixed 400 600 (handleTouchStart 400 vp0 evPinchA) evPinchB

/-- Witness for C4: the first pinch yields scale 1.5 in mode `ZOOM_150`; after
release, a regrab with the same distances yields `1.5 * 150/100 = 2.25`
(relative to the new baseline, not to the original 1.0, which would have
given 1.5 again). -/
theorem pinch_zoom_witness :
    pinch1.state.scale = 1.5 ∧
    pinch1.state.zoomMode = ZoomMode.ZOOM_150 ∧
    (handleTouchMoveFixed 400 600
        (handleTouchStart 400 (handleTouchEndFixed pinch1) evPinchA) evPinchB).state.scale
      = 2.25 := by
  have h1 := pinch_zoom 400 600 vp0 evPinchA evPinchB rfl rfl
  have hA : pinch1.state.scale = 1.5 := by
    unfold pinch1
    rw [h1.1]
    norm_num [vp0, ps0, evPinchA, evPinchB]
  have h2 := pinch_zoom 400 600 (handleTouchEndFixed pinch1) evPinchA evPinchB rfl rfl
  have hs : (handleTouchEndFixed pinch1).state.scale = pinch1.state.scale := by
    unfold handleTouchEndFixed
    split_ifs <;> rfl
  refine ⟨hA, h1.2, ?_⟩
  rw [h2.1, hs, hA]
  norm_num [evPinchA, evPinchB]

/-! ### C3 -/

/-- First tap of the C3 double-tap sequence: x = 100 (left half of a 400 px
screen) at t = 0 ms. -/
def tap1 : TouchEvt := { touches := [{ x := 100, y := 300 }], time := 0, pinchDist := 0 }

/-- Second tap of the C3 double-tap sequence: same x at t = 200 ms, within
the 300 ms window and 50 px. -/
def tap2 : TouchEvt := { touches := [{ x := 100, y := 300 }], time := 200, pinchDist := 0 }

/-- Right-half first tap for the C3 sequence: x = 300 at t = 0 ms. -/
def tap1R : TouchEvt := { touches := [{ x := 300, y := 300 }], time := 0, pinchDist := 0 }

/-- Right-half second tap for the C3 sequence: x = 300 at t = 200 ms. -/
def tap2R : TouchEvt := { touches := [{ x := 300, y := 300 }], time := 200, pinchDist := 0 }

/-- C3 (code bug): from `currentTime = 20`, `duration = 100` on a 400 px
screen, the second tap of a left-half double tap immediately seeks to 10 and
a right-half one to 30, as claimed — but the double-tap branch leaves
`gestureType = 'SEEK'`, so the finger-up of that second tap runs the SEEK
commit in `handleTouchEndFixed` and overwrites `currentTime` with the stale
`targetSeekTimeRef` (0 in a fresh session): the ±10 result does not survive
the end of the touch sequence. -/
theorem doubleTap_stale_commit_on_release :
    (handleTouchStart 400 (handleTouchEndFixed (handleTouchStart 400 vp0 tap1)) tap2).state.currentTime
        = 10 ∧
    (handleTouchStart 400 (handleTouchEndFixed (handleTouchStart 400 vp0 tap1R)) tap2R).state.currentTime
        = 30 ∧
    (handleTouchEndFixed
        (handleTouchStart 400 (handleTouchEndFixed (handleTouchStart 400 vp0 tap1)) tap2)).state.currentTime
        = 0 := by
  have h1 : handleTouchStart 400 vp0 tap1 =
      { vp0 with
        lastTap := some { time := 0, x := 100 }
        touchStart := some { x := 100, y := 300, time := 0 }
        initialValue := 1 } := by
    norm_num [handleTouchStart, registerTap, tap1, vp0, ps0, vid0]
  have h2 : handleTouchEndFixed
      ({ vp0 with
         lastTap := some { time := 0, x := 100 }
         touchStart := some { x := 100, y := 300, time := 0 }
         initialValue := 1 } : VP) =
      { vp0 with lastTap := some { time := 0, x := 100 }, initialValue := 1 } := by
    simp [handleTouchEndFixed, vp0, ps0, vid0]
  have h3 : handleTouchStart 400
      ({ vp0 with lastTap := some { time := 0, x := 100 }, initialValue := 1 } : VP) tap2 =
      { vp0 with
        state := { ps0 with currentTime := 10 }
        video := { vid0 with currentTime := 10 }
        gestureType := GestureType.SEEK
        gestureText := "-10s"
        initialValue := 1 } := by
    simp [handleTouchStart, doubleTapSeek, handleSeek, tap2, vp0, ps0, vid0,
      DOUBLE_TAP_DELAY]
    norm_num [min_def, max_def]
  have h1R : handleTouchStart 400 vp0 tap1R =
      { vp0 with
        lastTap := some { time := 0, x := 300 }
        touchStart := some { x := 300, y := 300, time := 0 }
        initialValue := 1 } := by
    norm_num [handleTouchStart, registerTap, tap1R, vp0, ps0, vid0]
  have h2R : handleTouchEndFixed
      ({ vp0 with
         lastTap := some { time := 0, x := 300 }
         touchStart := some { x := 300, y := 300, time := 0 }
         initialValue := 1 } : VP) =
      { vp0 with lastTap := some { time := 0, x := 300 }, initialValue := 1 } := by
    simp [handleTouchEndFixed, vp0, ps0, vid0]
  have h3R : handleTouchStart 400
      ({ vp0 with lastTap := some { time := 0, x := 300 }, initialValue := 1 } : VP) tap2R =
      { vp0 with
        state := { ps0 with currentTime := 30 }
        video := { vid0 with currentTime := 30 }
        gestureType := GestureType.SEEK
        gestureText := "+10s"
        initialValue := 1 } := by
    simp [handleTouchStart, doubleTapSeek, handleSeek, tap2R, vp0, ps0, vid0,
      DOUBLE_TAP_DELAY]
    norm_num [min_def, max_def]
  rw [h1, h2, h3, h1R, h2R, h3R]
  refine ⟨rfl, rfl, ?_⟩
  simp [handleTouchEndFixed, vp0, ps0, vid0]

/-! ### C9 -/

/-- C9: when an audio item ends — `repeatMode = ONE` replays the same item
with the queue position unchanged; `repeatMode = ALL`, or a current item
that is not the last, advances the (non-shuffling) queue to the next index,
wrapping past the end to 0; otherwise (`OFF` on the last item) playback
stops with `isPlaying = false` and no advance. -/
theorem onAudioEnded_repeat_policy (rand : Nat) (a : AppState) :
    (a.audioState.repeatMode = RepeatMode.ONE →
      (onAudioEnded rand a).currentAudioIndex = a.currentAudioIndex ∧
      (onAudioEnded rand a).audioEl.playing = true ∧
      (onAudioEnded rand a).audioState = a.audioState) ∧
    (a.audioState.repeatMode ≠ RepeatMode.ONE →
     a.audioState.isShuffling = false →
     0 ≤ a.currentAudioIndex →
     a.currentAudioIndex < (a.audioFiles.length : Int) →
     (a.audioState.repeatMode = RepeatMode.ALL ∨
        a.currentAudioIndex < (a.audioFiles.length : Int) - 1) →
      (onAudioEnded rand a).currentAudioIndex =
        (if a.currentAudioIndex + 1 ≥ (a.audioFiles.length : Int) then 0
         else a.currentAudioIndex + 1) ∧
      (onAudioEnded rand a).audioEl.playing = true) ∧
    (a.audioState.repeatMode = RepeatMode.OFF →
     a.currentAudioIndex = (a.audioFiles.length : Int) - 1 →
      (onAudioEnded rand a).audioState.isPlaying = false ∧
      (onAudioEnded rand a).currentAudioIndex = a.currentAudioIndex ∧
      (onAudioEnded rand a).audioEl = a.audioEl) := by
  refine ⟨?_, ?_, ?_⟩
  · intro h
    simp [onAudioEnded, h]
  · intro hne hsh h0 hlt hcond
    have hlen : ¬ a.audioFiles.length = 0 := by omega
    unfold onAudioEnded
    rw [if_neg hne, if_pos hcond]
    unfold handleAudioNext playAudioAtIndex
    rw [if_neg hlen]
    simp only [hsh, Bool.false_eq_true, if_false]
    split_ifs with hwrap hbound hbound
    · simp
    · exfalso
      apply hbound
      constructor <;> omega
    · simp
    · exfalso
      apply hbound
      constructor <;> omega
  · intro hoff hlast
    have hne : a.audioState.repeatMode ≠ RepeatMode.ONE := by
      rw [hoff]
      intro h
      exact absurd h (by decide)
    have hnall : ¬ (a.audioState.repeatMode = RepeatMode.ALL ∨
        a.currentAudioIndex < (a.audioFiles.length : Int) - 1) := by
      rw [hoff]
      rintro (h | h)
      · exact absurd h (by decide)
      · omega
    unfold onAudioEnded
    rw [if_neg hne, if_neg hnall]
    simp

/-- A two-item audio library used by the queue-logic witnesses. -/
def lib2 : List AudioFile :=
  [{ id := "a", name := "trackA", artist := "Local Artist" },
   { id := "b", name := "trackB", artist := "Local Artist" }]

/-- An `App` audio state playing the last item of `lib2` (index 1), not
shuffling, `repeatMode = OFF`, 10 s into the track. -/
def app0 : AppState :=
  { audioFiles := lib2
    currentAudioIndex := 1
    isAudioPlayerOpen := true
    audioState :=
      { isPlaying := true, currentTime := 10, duration := 60, volume := 1,
        playbackRate := 1, isShuffling := false, repeatMode := RepeatMode.OFF }
    audioEl := { currentTime := 10, playing := true } }

/-- Witness for C9: on `app0` with `repeatMode = ONE` the index stays 1 and
the item replays; with `repeatMode = ALL` (still on the last item) the queue
advances, wrapping to index 0; with `repeatMode = OFF` on the last item
playback stops without advancing. -/
theorem onAudioEnded_repeat_policy_witness :
    ((onAudioEnded 0 { app0 with audioState := { app0.audioState with repeatMode := RepeatMode.ONE } }).currentAudioIndex = 1 ∧
     (onAudioEnded 0 { app0 with audioState := { app0.audioState with repeatMode := RepeatMode.ONE } }).audioEl.playing = true) ∧
    (onAudioEnded 0 { app0 with audioState := { app0.audioState with repeatMode := RepeatMode.ALL } }).currentAudioIndex = 0 ∧
    ((onAudioEnded 0 app0).audioState.isPlaying = false ∧
     (onAudioEnded 0 app0).currentAudioIndex = 1) := by
  have hone := (onAudioEnded_repeat_policy 0
    { app0 with audioState := { app0.audioState with repeatMode := RepeatMode.ONE } }).1 rfl
  have hall := (onAudioEnded_repeat_policy 0
    { app0 with audioState := { app0.audioState with repeatMode := RepeatMode.ALL } }).2.1
    (by decide) rfl (by decide) (by decide) (Or.inl rfl)
  have hoff := (onAudioEnded_repeat_policy 0 app0).2.2 rfl (by decide)
  refine ⟨⟨hone.1, hone.2.1⟩, ?_, hoff.1, hoff.2.1⟩
  rw [hall.1]
  decide

/-! ### C10 -/

/-- C10: the audio previous-track operation, on a non-empty library — when
more than 3 seconds into the current track it only rewinds the element to 0,
leaving the current index, the player state and the play/pause status
unchanged; only at 3 seconds or less does it move to another track: the
previous index, wrapping from the first track to the last when not
shuffling, or the drawn random index when shuffling. -/
theorem audioPrev_restart_or_step (rand : Nat) (a : AppState)
    (hlen : a.audioFiles.length ≠ 0) :
    (a.audioEl.currentTime > 3 →
      (handleAudioPrev rand a).currentAudioIndex = a.currentAudioIndex ∧
      (handleAudioPrev rand a).audioEl.currentTime = 0 ∧
      (handleAudioPrev rand a).audioEl.playing = a.audioEl.playing ∧
      (handleAudioPrev rand a).audioState = a.audioState ∧
      (handleAudioPrev rand a).isAudioPlayerOpen = a.isAudioPlayerOpen) ∧
    (¬ a.audioEl.currentTime > 3 →
     a.audioState.isShuffling = false →
     0 ≤ a.currentAudioIndex →
     a.currentAudioIndex < (a.audioFiles.length : Int) →
      (handleAudioPrev rand a).currentAudioIndex =
        (if a.currentAudioIndex - 1 < 0 then (a.audioFiles.length : Int) - 1
         else a.currentAudioIndex - 1)) ∧
    (¬ a.audioEl.currentTime > 3 →
     a.audioState.isShuffling = true →
     rand < a.audioFiles.length →
      (handleAudioPrev rand a).currentAudioIndex = (rand : Int)) := by
  refine ⟨?_, ?_, ?_⟩
  · intro hgt
    unfold handleAudioPrev
    rw [if_neg hlen, if_pos hgt]
    simp
  · intro hle hsh h0 hlt
    unfold handleAudioPrev
    rw [if_neg hlen, if_neg hle]
    unfold playAudioAtIndex
    simp only [hsh, Bool.false_eq_true, if_false]
    split_ifs with hwrap hbound hbound
    · simp
    · exfalso
      apply hbound
      constructor <;> omega
    · simp
    · exfalso
      apply hbound
      constructor <;> omega
  · intro hle hsh hrand
    unfold handleAudioPrev
    rw [if_neg hlen, if_neg hle]
    unfold playAudioAtIndex
    simp only [hsh, if_true]
    rw [if_pos (by constructor <;> omega)]

/-- Witness for C10: on `app0` (10 s into the last of two tracks) the
previous-track operation only rewinds to 0, keeping index 1; 2 s into the
first track (index 0) it wraps to the last index 1. -/
theorem audioPrev_restart_or_step_witness :
    ((handleAudioPrev 0 app0).currentAudioIndex = 1 ∧
     (handleAudioPrev 0 app0).audioEl.currentTime = 0) ∧
    (handleAudioPrev 0
        { app0 with currentAudioIndex := 0,
                    audioEl := { currentTime := 2, playing := true } }).currentAudioIndex = 1 := by
  have h1 := (audioPrev_restart_or_step 0 app0 (by decide)).1 (by norm_num [app0])
  have h2 := (audioPrev_restart_or_step 0
      { app0 with currentAudioIndex := 0,
                  audioEl := { currentTime := 2, playing := true } } (by decide)).2.1
    (by norm_num) (by decide) (by decide) (by decide)
  refine ⟨⟨h1.1, h1.2.1⟩, ?_⟩
  rw [h2]
  decide
